import Mathlib

/-!
Verification development for the knowledge-layer note store of this
repository (`knowledge-service-impl.ts`).

The service keeps three synchronized representations of a note inside one
SQLite database (driven by better-sqlite3), plus an on-disk markdown mirror:

* table `notes (id PRIMARY KEY, title, content, path UNIQUE, tags, created, modified)`
* table `links (from_id, to_id, type CHECK (type IN ('reference','backlink')), context)`
  with `FOREIGN KEY (from_id) REFERENCES notes(id) ON DELETE CASCADE` and the
  same for `to_id`, and no UNIQUE constraint of any kind;
* FTS5 virtual table `notes_fts (id UNINDEXED, title, content, tokenize='porter')`.

The embedding below models the database as explicit lists of rows (in rowid
insertion order) and each service method as a pure state-passing function.
External-engine behaviour that the source relies on is modelled from the
engines' documented semantics:

* better-sqlite3 compiles its bundled SQLite with `SQLITE_DEFAULT_FOREIGN_KEYS=1`,
  so the two foreign keys on `links` are enforced and `ON DELETE CASCADE` fires
  when a `notes` row is deleted.  An `INSERT` into `links` whose `from_id` or
  `to_id` does not exist in `notes` fails with a foreign-key violation, and
  SQLite's conflict-resolution clauses (`OR IGNORE`, `OR REPLACE`) do not apply
  to foreign-key constraints.
* `INSERT OR IGNORE` / `INSERT OR REPLACE` only fire on UNIQUE / PRIMARY KEY /
  NOT NULL / CHECK conflicts.  The `links` table has no such constraint on its
  columns, and an FTS5 table has no uniqueness constraints at all, so both
  statements degenerate to plain row insertion (a fresh rowid every time).
* better-sqlite3 binds statement parameters strictly: running a prepared
  statement with more (or fewer) values than the statement has `?` placeholders
  throws a RangeError before the statement executes.
* An FTS5 `MATCH` pattern is parsed when the query executes; a pattern that is
  not valid FTS5 query syntax raises an fts5 syntax error.  An unquoted
  bareword may only contain alphanumeric characters, `_`, or non-ASCII
  characters; in particular `-` is not a bareword character, so an unquoted
  hyphenated token is a syntax error.  We model the bareword fragment of the
  query language: a query is valid when it consists of whitespace-separated
  bareword tokens, and a row matches when every query token occurs among the
  tokens of its indexed columns (title, content).  The porter stemmer only
  coarsens token equality and the numeric bm25 rank is not modelled; no claim
  below depends on either.

File-system effects (the document mirror) are modelled as a path-to-content
map in the state plus a per-call `fsOk` flag that says whether the single
mirror write performed by the call succeeds; a failing write leaves the file
map unchanged and makes the service method throw at exactly the point where
the source awaits `fs.writeFile`.  Timestamps (`new Date()`) are modelled as a
`now : Nat` argument.  `JSON.stringify`/`JSON.parse` of the tag array is an
identity round-trip and tags are therefore stored as the list itself.
JavaScript `toLowerCase` and `\s` are modelled with `Char.toLower` and
`Char.isWhitespace` (the claims only involve ASCII).
-/

namespace Knowledge

/-- `'reference' | 'backlink'` (the CHECK constraint on `links.type`). -/
inductive LinkType where
  | reference
  | backlink
deriving DecidableEq, BEq, Repr

/-- `NoteLink` from `common/knowledge-service.ts`.  The source field `to`
is a reserved token in Lean and is rendered as `toId`. -/
structure NoteLink where
  toId : String
  type : LinkType
  context : String
deriving DecidableEq, BEq, Repr

/-- `Note` from `common/knowledge-service.ts` (dates as Nat millis). -/
structure Note where
  id : String
  title : String
  content : String
  path : String
  tags : List String
  created : Nat
  modified : Nat
  links : List NoteLink
deriving DecidableEq, BEq, Repr

/-- A row of the `notes` table. -/
structure NoteRow where
  id : String
  title : String
  content : String
  path : String
  tags : List String
  created : Nat
  modified : Nat
deriving DecidableEq, BEq, Repr

/-- A row of the `links` table. -/
structure LinkRow where
  from_id : String
  to_id : String
  type : LinkType
  context : String
deriving DecidableEq, BEq, Repr

/-- A row of the FTS5 table `notes_fts`. -/
structure FtsRow where
  id : String
  title : String
  content : String
deriving DecidableEq, BEq, Repr

/-- The three relations of `knowledge.db`, each in rowid (insertion) order. -/
structure DB where
  notes : List NoteRow
  links : List LinkRow
  fts : List FtsRow
deriving DecidableEq, BEq, Repr

/-- Database plus the on-disk vault (path ↦ file content). -/
structure St where
  db : DB
  files : List (String × String)
deriving DecidableEq, BEq, Repr

/-- The empty store (fresh `createTables` plus an empty vault directory). -/
def stEmpty : St := ⟨⟨[], [], []⟩, []⟩

/-- Errors surfaced by the service methods. -/
inductive KErr where
  | notFound
  | duplicate
  | fkViolation
  | mirrorFailure
  | bindMismatch
  | ftsSyntaxError
deriving DecidableEq, BEq, Repr

/-- `SearchResult` from `common/knowledge-service.ts`.  `score` carries the
bm25 rank in the source; the numeric value is not modelled (see header). -/
structure SearchResult where
  noteId : String
  title : String
  preview : String
  score : Int
  matchSnippets : List String
deriving DecidableEq, BEq, Repr

/-- `NoteWriteRequest` from `common/knowledge-service.ts`: `content` is
required, the rest optional. -/
structure NoteWriteRequest where
  noteId : Option String
  path : Option String
  content : String
  title : Option String
  tags : Option (List String)
deriving DecidableEq, BEq, Repr

/-- `Partial<NoteWriteRequest>`: every field optional, `none` = key absent. -/
structure PartialWriteRequest where
  noteId : Option String
  path : Option String
  content : Option String
  title : Option String
  tags : Option (List String)
deriving DecidableEq, BEq, Repr

/-- The vault directory (`path.join(__dirname, 'knowledge-vault')`; the
absolute prefix is irrelevant and dropped). -/
def vaultDir : String := "knowledge-vault"

/-- `path.join(this.vaultPath, title + '.md')`. -/
def filePath (title : String) : String := vaultDir ++ "/" ++ title ++ ".md"

/-- One step of `title.replace(/\s+/g, '-')`: a maximal whitespace run
becomes a single `'-'`.  The flag records whether the previous character was
part of a whitespace run. -/
def collapseWsGo : Bool → List Char → List Char
  | _, [] => []
  | inWs, c :: rest =>
    if c.isWhitespace then
      if inWs then collapseWsGo true rest
      else '-' :: collapseWsGo true rest
    else c :: collapseWsGo false rest

/-- `title.toLowerCase().replace(/\s+/g, '-')` — the id derived in
`createNote`. -/
def slug (title : String) : String :=
  ⟨collapseWsGo false (title.toList.map Char.toLower)⟩

/-- Scanner for the regex `/\[\[([^\]]+)\]\]/g` of `extractLinks`: at `[[`,
take the maximal run of non-`]` characters; the match succeeds when the run is
non-empty and immediately followed by `]]`, otherwise scanning resumes at the
next character (the second `[` of the failed start), exactly as the regex
engine retries at the next start offset.  The fuel equals the remaining input
length; every recursive call strictly shortens the character list while
consuming one unit of fuel, so the fuel is never exhausted before the list is
empty. -/
def extractLinksGo : Nat → List Char → List NoteLink
  | _, [] => []
  | 0, _ => []
  | fuel + 1, '[' :: '[' :: rest =>
    let tgt := rest.takeWhile (fun c => c != ']')
    match rest.dropWhile (fun c => c != ']') with
    | ']' :: ']' :: rest' =>
      if tgt.isEmpty then extractLinksGo fuel ('[' :: rest)
      else ⟨⟨tgt⟩, LinkType.reference, "[[" ++ ⟨tgt⟩ ++ "]]"⟩ :: extractLinksGo fuel rest'
    | _ => extractLinksGo fuel ('[' :: rest)
  | fuel + 1, _ :: rest => extractLinksGo fuel rest

/-- `extractLinks(content)`: every `[[Target]]` in first-occurrence order,
duplicates preserved, context = the matched text. -/
def extractLinks (content : String) : List NoteLink :=
  extractLinksGo content.toList.length content.toList

/-- `formatNoteAsMarkdown`. -/
def formatNoteAsMarkdown (note : Note) : String :=
  let head := "# " ++ note.title ++ "\n\n"
  let head :=
    if note.tags.length > 0 then
      head ++ "Tags: " ++ String.intercalate " " (note.tags.map (fun t => "#" ++ t)) ++ "\n\n"
    else head
  head ++ note.content

/-- A character FTS5 accepts inside an unquoted bareword. -/
def isWordChar (c : Char) : Bool :=
  c.isAlphanum || c == '_' || c.toNat > 127

/-- Tokenizer shared by the document side and the query side of the model:
maximal runs of bareword characters, lowercased. -/
def tokensGo : List Char → List Char → List String
  | acc, [] => if acc.isEmpty then [] else [⟨acc.reverse⟩]
  | acc, c :: rest =>
    if isWordChar c then tokensGo (c.toLower :: acc) rest
    else if acc.isEmpty then tokensGo [] rest
    else (⟨acc.reverse⟩ : String) :: tokensGo [] rest

/-- Tokens of a string (document column or query). -/
def ftsTokens (s : String) : List String := tokensGo [] s.toList

/-- The modelled fragment of FTS5 query syntax: whitespace-separated bareword
tokens, at least one.  Anything containing other punctuation (for example an
unquoted `-`) is a syntax error. -/
def ftsQueryValid (q : String) : Bool :=
  q.toList.all (fun c => isWordChar c || c.isWhitespace) && !(ftsTokens q).isEmpty

/-- `notes_fts MATCH ?` on one row: every query token occurs among the row's
title/content tokens. -/
def ftsMatch (q : String) (row : FtsRow) : Bool :=
  let hay := ftsTokens (row.title ++ " " ++ row.content)
  (ftsTokens q).all (fun t => hay.contains t)

/-- `fs.writeFile`: create or overwrite. -/
def writeFileTo (files : List (String × String)) (p c : String) : List (String × String) :=
  if files.any (fun e => e.fst == p) then
    files.map (fun e => if e.fst == p then (p, c) else e)
  else files ++ [(p, c)]

/-- `SELECT 1 FROM notes WHERE id = ?` (foreign-key parent lookup). -/
def noteExists (db : DB) (id : String) : Bool :=
  db.notes.any (fun n => n.id == id)

/-- `INSERT INTO notes ...`: fails on the `id` PRIMARY KEY or the `path`
UNIQUE constraint, otherwise appends the row. -/
def insertNoteRow (db : DB) (r : NoteRow) : Except KErr DB :=
  if db.notes.any (fun n => n.id == r.id) || db.notes.any (fun n => n.path == r.path) then
    .error .duplicate
  else .ok {db with notes := db.notes ++ [r]}

/-- `indexNoteInFTS`: `INSERT OR REPLACE INTO notes_fts (id, title, content)`.
An FTS5 table has no uniqueness constraint, so `OR REPLACE` has nothing to
conflict with and the statement appends a fresh row on every call. -/
def indexNoteInFTS (n : Note) (db : DB) : DB :=
  {db with fts := db.fts ++ [⟨n.id, n.title, n.content⟩]}

/-- `INSERT [OR IGNORE] INTO links ...`: both foreign keys are enforced
(better-sqlite3 default); `links` has no UNIQUE constraint, so when the keys
resolve the row is always appended. -/
def insertLinkRow (db : DB) (r : LinkRow) : Except KErr DB :=
  if noteExists db r.from_id && noteExists db r.to_id then
    .ok {db with links := db.links ++ [r]}
  else .error .fkViolation

/-- The `note.links.forEach(insertLink.run ...)` loop of `updateLinks`: each
extracted link becomes a `(note.id, link.to, link.type, link.context)` row;
the first failing insert throws, keeping the rows already inserted. -/
def insertRefLinks (fromId : String) (ls : List NoteLink) (db : DB) : Option KErr × DB :=
  match ls with
  | [] => (none, db)
  | l :: rest =>
    match insertLinkRow db ⟨fromId, l.toId, l.type, l.context⟩ with
    | .ok db' => insertRefLinks fromId rest db'
    | .error e => (some e, db)

/-- The `createBacklinks` loop: `INSERT OR IGNORE` of
`(link.to, note.id, 'backlink', '')` for each extracted link. -/
def insertBacklinks (noteId : String) (ls : List NoteLink) (db : DB) : Option KErr × DB :=
  match ls with
  | [] => (none, db)
  | l :: rest =>
    match insertLinkRow db ⟨l.toId, noteId, LinkType.backlink, ""⟩ with
    | .ok db' => insertBacklinks noteId rest db'
    | .error e => (some e, db)

/-- `updateLinks`: `DELETE FROM links WHERE from_id = ?`, then the reference
inserts, then `createBacklinks`. -/
def updateLinksDb (n : Note) (db : DB) : Option KErr × DB :=
  let db1 := {db with links := db.links.filter (fun r => !(r.from_id == n.id))}
  match insertRefLinks n.id n.links db1 with
  | (some e, db2) => (some e, db2)
  | (none, db2) => insertBacklinks n.id n.links db2

/-- Common tail of `createNote`/`updateNote`: run the link phase
(`updateLinks`) and either return the note or rethrow the first link error,
keeping whatever the link phase already wrote. -/
def finishWrite (note : Note) (res : Option KErr × DB)
    (files : List (String × String)) : Except KErr Note × St :=
  match res with
  | (some e, db3) => (.error e, ⟨db3, files⟩)
  | (none, db3) => (.ok note, ⟨db3, files⟩)

/-- Mapping a `notes` row to a `Note` (`readNote`'s shape: links left empty,
to be populated on demand). -/
def rowToNote (r : NoteRow) : Note :=
  ⟨r.id, r.title, r.content, r.path, r.tags, r.created, r.modified, []⟩

/-- `readNote(noteId)`: `SELECT * FROM notes WHERE id = ?`. -/
def readNote (id : String) (s : St) : Option Note :=
  (s.db.notes.find? (fun n => n.id == id)).map rowToNote

/-- `createNote(title, content = '', tags = [])`, in source order: derive id
and path, write the mirror file, `INSERT INTO notes`, `indexNoteInFTS`,
`updateLinks`.  No transaction wraps the statements, so an error thrown
mid-sequence keeps every write already performed. -/
def createNote (fsOk : Bool) (now : Nat) (title : String) (content : String)
    (tags : List String) (s : St) : Except KErr Note × St :=
  let id := slug title
  let fp := filePath title
  let note : Note := ⟨id, title, content, fp, tags, now, now, extractLinks content⟩
  if fsOk then
    let s1 : St := {s with files := writeFileTo s.files fp (formatNoteAsMarkdown note)}
    match insertNoteRow s1.db ⟨id, title, content, fp, tags, now, now⟩ with
    | .error e => (.error e, s1)
    | .ok db1 => finishWrite note (updateLinksDb note (indexNoteInFTS note db1)) s1.files
  else (.error .mirrorFailure, s)

/-- The SQL `UPDATE notes SET title, content, tags, modified WHERE id = ?`
(id, created and path are not in the SET list). -/
def updateNoteRow (db : DB) (id title content : String) (tags : List String)
    (modified : Nat) : DB :=
  {db with notes := db.notes.map (fun r =>
    if r.id == id then {r with title := title, content := content, tags := tags, modified := modified}
    else r)}

/-- `updateNote(noteId, updates)`, in source order: read, merge
(`{...note, ...updates}` with `links: extractLinks(updates.content || note.content)`,
so an explicitly empty new content extracts links from the old content),
run the SQL UPDATE, then write the mirror file, then `indexNoteInFTS`,
then `updateLinks`.  The canonical UPDATE commits before the mirror write is
attempted. -/
def updateNote (fsOk : Bool) (now : Nat) (noteId : String)
    (u : PartialWriteRequest) (s : St) : Except KErr Note × St :=
  match readNote noteId s with
  | none => (.error .notFound, s)
  | some note =>
    let newTitle := u.title.getD note.title
    let newContent := u.content.getD note.content
    let newTags := u.tags.getD note.tags
    let newPath := u.path.getD note.path
    let linkSrc :=
      match u.content with
      | some c => if c == "" then note.content else c
      | none => note.content
    let updated : Note :=
      ⟨note.id, newTitle, newContent, newPath, newTags, note.created, now, extractLinks linkSrc⟩
    let db1 := updateNoteRow s.db noteId newTitle newContent newTags now
    if fsOk then
      let files1 := writeFileTo s.files updated.path (formatNoteAsMarkdown updated)
      finishWrite updated (updateLinksDb updated (indexNoteInFTS updated db1)) files1
    else (.error .mirrorFailure, ⟨db1, s.files⟩)

/-- `deleteNote(noteId)`: read; `DELETE FROM notes WHERE id = ?` (the two
`ON DELETE CASCADE` foreign keys delete every `links` row whose `from_id` or
`to_id` is the deleted id); `DELETE FROM notes_fts WHERE id = ?`; best-effort
`fs.unlink` whose failure is caught and logged. -/
def deleteNote (fsOk : Bool) (id : String) (s : St) : Except KErr Bool × St :=
  match readNote id s with
  | none => (.ok false, s)
  | some note =>
    let db1 : DB :=
      {s.db with
        notes := s.db.notes.filter (fun r => !(r.id == id)),
        links := s.db.links.filter (fun r => !(r.from_id == id || r.to_id == id))}
    let db2 : DB := {db1 with fts := db1.fts.filter (fun f => !(f.id == id))}
    let files := if fsOk then s.files.filter (fun e => !(e.fst == note.path)) else s.files
    (.ok true, ⟨db2, files⟩)

/-- `search(query, tags?, limit = 50)`.  The generated SQL has three `?`
placeholders when the tag clause is added (query, one tag, limit) and two
otherwise, but `params` receives every supplied tag; better-sqlite3 rejects
the mismatched parameter count before executing, so any call with two or more
tags throws.  Otherwise the FTS5 pattern is parsed (syntax error on invalid
patterns), matching rows are joined with `notes` on id, filtered by the single
bound tag (`? IN (SELECT value FROM json_each(n.tags))`), truncated to
`limit`, and mapped to results whose preview is the first 200 characters of
the joined note's content plus an ellipsis. -/
def search (q : String) (tags : Option (List String)) (limit : Nat)
    (s : St) : Except KErr (List SearchResult) :=
  let useTags := match tags with | some ts => decide (ts.length > 0) | none => false
  if useTags && !((tags.getD []).length == 1) then .error .bindMismatch
  else if !(ftsQueryValid q) then .error .ftsSyntaxError
  else
    let matched := s.db.fts.filter (fun f => ftsMatch q f)
    let joined := matched.filterMap (fun f => s.db.notes.find? (fun n => n.id == f.id))
    let filtered :=
      match tags with
      | some (t :: _) => joined.filter (fun (n : NoteRow) => n.tags.contains t)
      | _ => joined
    .ok ((filtered.take limit).map (fun (n : NoteRow) =>
      ⟨n.id, n.title, n.content.take 200 ++ "...", 0, []⟩))

/-- JavaScript truthiness of an optional string (`if (request.noteId)`). -/
def isTruthyOpt : Option String → Bool
  | some s => s != ""
  | none => false

/-- `request.title || 'Untitled'`. -/
def titleOrUntitled : Option String → String
  | some t => if t == "" then "Untitled" else t
  | none => "Untitled"

/-- Passing the whole `NoteWriteRequest` where `Partial<NoteWriteRequest>` is
expected (`toolWriteNote`'s update branch). -/
def toUpdates (r : NoteWriteRequest) : PartialWriteRequest :=
  ⟨r.noteId, r.path, some r.content, r.title, r.tags⟩

/-- `toolWriteNote(request)`: update when a (truthy) `noteId` is supplied,
otherwise create with `request.title || 'Untitled'`. -/
def toolWriteNote (fsOk : Bool) (now : Nat) (req : NoteWriteRequest)
    (s : St) : Except KErr Note × St :=
  if isTruthyOpt req.noteId then
    updateNote fsOk now (req.noteId.getD "") (toUpdates req) s
  else
    createNote fsOk now (titleOrUntitled req.title) req.content (req.tags.getD []) s

/-- Structural fact about stores produced through the service API: a row's
`path` was derived from the same title as its `id` (`createNote` writes
`filePath title` and `slug title` together, and the SQL UPDATE of
`updateNote` touches neither column).  Since `filePath` appends the title
between two fixed strings, two different titles never share a path. -/
def TitledPaths (s : St) : Prop :=
  ∀ r ∈ s.db.notes, ∀ t : String, r.path = filePath t → r.id = slug t

/-! ### Helper lemmas -/

theorem insertLinkRow_ok_db {db : DB} {r : LinkRow} {db' : DB}
    (h : insertLinkRow db r = .ok db') : db'.notes = db.notes ∧ db'.fts = db.fts := by
  unfold insertLinkRow at h
  split at h
  · cases h; exact ⟨rfl, rfl⟩
  · cases h

theorem insertRefLinks_db (fromId : String) (ls : List NoteLink) (db : DB) :
    ((insertRefLinks fromId ls db).2).notes = db.notes
      ∧ ((insertRefLinks fromId ls db).2).fts = db.fts := by
  induction ls generalizing db with
  | nil => exact ⟨rfl, rfl⟩
  | cons l rest ih =>
    simp only [insertRefLinks]
    cases hins : insertLinkRow db ⟨fromId, l.toId, l.type, l.context⟩ with
    | ok db' =>
      obtain ⟨h1, h2⟩ := insertLinkRow_ok_db hins
      obtain ⟨ih1, ih2⟩ := ih db'
      exact ⟨ih1.trans h1, ih2.trans h2⟩
    | error e => exact ⟨rfl, rfl⟩

theorem insertBacklinks_db (noteId : String) (ls : List NoteLink) (db : DB) :
    ((insertBacklinks noteId ls db).2).notes = db.notes
      ∧ ((insertBacklinks noteId ls db).2).fts = db.fts := by
  induction ls generalizing db with
  | nil => exact ⟨rfl, rfl⟩
  | cons l rest ih =>
    simp only [insertBacklinks]
    cases hins : insertLinkRow db ⟨l.toId, noteId, LinkType.backlink, ""⟩ with
    | ok db' =>
      obtain ⟨h1, h2⟩ := insertLinkRow_ok_db hins
      obtain ⟨ih1, ih2⟩ := ih db'
      exact ⟨ih1.trans h1, ih2.trans h2⟩
    | error e => exact ⟨rfl, rfl⟩

theorem finishWrite_snd (n : Note) (r : Option KErr × DB)
    (fs : List (String × String)) : (finishWrite n r fs).2 = ⟨r.2, fs⟩ := by
  rcases r with ⟨o, db⟩
  cases o <;> rfl

theorem updateLinksDb_db (n : Note) (db : DB) :
    ((updateLinksDb n db).2).notes = db.notes ∧ ((updateLinksDb n db).2).fts = db.fts := by
  simp only [updateLinksDb]
  have href := insertRefLinks_db n.id n.links
    {db with links := db.links.filter (fun r => !(r.from_id == n.id))}
  cases hr : insertRefLinks n.id n.links
      {db with links := db.links.filter (fun r => !(r.from_id == n.id))} with
  | mk o db2 =>
    rw [hr] at href
    cases o with
    | some e => exact href
    | none =>
      obtain ⟨h1, h2⟩ := insertBacklinks_db n.id n.links db2
      exact ⟨h1.trans href.1, h2.trans href.2⟩

theorem insertNoteRow_fresh {s : St} {title : String} (content : String)
    (tags : List String) (now : Nat)
    (hWF : TitledPaths s)
    (hfresh : ∀ r ∈ s.db.notes, r.id ≠ slug title) :
    insertNoteRow s.db ⟨slug title, title, content, filePath title, tags, now, now⟩
      = .ok {s.db with notes :=
          s.db.notes ++ [⟨slug title, title, content, filePath title, tags, now, now⟩]} := by
  have hid : s.db.notes.any (fun n => n.id == slug title) = false := by
    rw [List.any_eq_false]
    intro x hx
    simpa using hfresh x hx
  have hpath : s.db.notes.any (fun n => n.path == filePath title) = false := by
    rw [List.any_eq_false]
    intro x hx hbeq
    have hxp : x.path = filePath title := by simpa using hbeq
    exact hfresh x hx (hWF x hx title hxp)
  unfold insertNoteRow
  rw [hid, hpath]
  rfl

/-- After a `createNote` with a fresh id on a store whose paths come from
titles, the `notes` relation is the old one plus the new row (whatever the
outcome of the link phase). -/
theorem createNote_fresh_notes (s : St) (title content : String)
    (tags : List String) (now : Nat)
    (hWF : TitledPaths s)
    (hfresh : ∀ r ∈ s.db.notes, r.id ≠ slug title) :
    ((createNote true now title content tags s).2).db.notes
      = s.db.notes ++ [⟨slug title, title, content, filePath title, tags, now, now⟩] := by
  simp only [createNote, if_true]
  rw [insertNoteRow_fresh content tags now hWF hfresh]
  dsimp only
  rw [finishWrite_snd]
  exact (updateLinksDb_db _ _).1

/-- `readNote` after a fresh `createNote` returns exactly the inserted row. -/
theorem createNote_fresh_read (s : St) (title content : String)
    (tags : List String) (now : Nat)
    (hWF : TitledPaths s)
    (hfresh : ∀ r ∈ s.db.notes, r.id ≠ slug title) :
    readNote (slug title) ((createNote true now title content tags s).2)
      = some ⟨slug title, title, content, filePath title, tags, now, now, []⟩ := by
  unfold readNote
  rw [createNote_fresh_notes s title content tags now hWF hfresh]
  rw [List.find?_append]
  have h1 : s.db.notes.find? (fun n => n.id == slug title) = none := by
    rw [List.find?_eq_none]
    intro x hx
    simpa using hfresh x hx
  have h2 : ([(⟨slug title, title, content, filePath title, tags, now, now⟩ : NoteRow)]).find?
      (fun n => n.id == slug title)
      = some ⟨slug title, title, content, filePath title, tags, now, now⟩ :=
    List.find?_cons_of_pos _ (by simp)
  rw [h1, h2]
  rfl

theorem find?_map_pres (g : NoteRow → NoteRow) (key : String)
    (hg : ∀ r, (g r).id = r.id) (l : List NoteRow) :
    (l.map g).find? (fun r => r.id == key) = (l.find? (fun r => r.id == key)).map g := by
  induction l with
  | nil => rfl
  | cons a l ih =>
    by_cases h : (a.id == key) = true
    · rw [List.map_cons,
        List.find?_cons_of_pos (p := fun (r : NoteRow) => r.id == key) _
          (by show ((g a).id == key) = true; rw [hg a]; exact h),
        List.find?_cons_of_pos (p := fun (r : NoteRow) => r.id == key) _ h]
      rfl
    · rw [List.map_cons,
        List.find?_cons_of_neg (p := fun (r : NoteRow) => r.id == key) _
          (by show ¬((g a).id == key) = true; rw [hg a]; exact h),
        List.find?_cons_of_neg (p := fun (r : NoteRow) => r.id == key) _ h, ih]

/-- The row transformation performed by `updateNote`'s SQL UPDATE on the row
whose id matches (`old` is the note read before the update). -/
def patchRow (id : String) (u : PartialWriteRequest) (old : Note) (now : Nat)
    (r : NoteRow) : NoteRow :=
  if r.id == id then
    {r with
      title := u.title.getD old.title,
      content := u.content.getD old.content,
      tags := u.tags.getD old.tags,
      modified := now}
  else r

theorem patchRow_id (id : String) (u : PartialWriteRequest) (old : Note)
    (now : Nat) (r : NoteRow) : (patchRow id u old now r).id = r.id := by
  unfold patchRow
  split <;> rfl

theorem patchRow_created (id : String) (u : PartialWriteRequest) (old : Note)
    (now : Nat) (r : NoteRow) : (patchRow id u old now r).created = r.created := by
  unfold patchRow
  split <;> rfl

theorem patchRow_modified (id : String) (u : PartialWriteRequest) (old : Note)
    (now : Nat) (r : NoteRow) (hp : (r.id == id) = true) :
    (patchRow id u old now r).modified = now := by
  unfold patchRow
  rw [if_pos hp]

/-- Whatever the mirror-write outcome and the link-phase outcome, the `notes`
relation after `updateNote` on an existing note is the old relation with the
matching row patched (the SQL UPDATE commits first in every branch). -/
theorem updateNote_post_notes (fsOk : Bool) (now : Nat) (id : String)
    (u : PartialWriteRequest) (s : St) (old : Note)
    (hread : readNote id s = some old) :
    ((updateNote fsOk now id u s).2).db.notes
      = s.db.notes.map (patchRow id u old now) := by
  unfold updateNote
  rw [hread]
  dsimp only
  cases fsOk with
  | false => rfl
  | true =>
    rw [if_pos rfl]
    rw [finishWrite_snd]
    exact (updateLinksDb_db _ _).1

/-- A create whose derived id is already present fails with the duplicate
error before any database write (the mirror file, written first, is already
overwritten at that point). -/
theorem createNote_dup (s : St) (title content : String) (tags : List String)
    (now : Nat)
    (hdupid : s.db.notes.any (fun n => n.id == slug title) = true) :
    (createNote true now title content tags s).1 = .error .duplicate
    ∧ ((createNote true now title content tags s).2).db = s.db := by
  have hins : insertNoteRow s.db ⟨slug title, title, content, filePath title, tags, now, now⟩
      = .error .duplicate := by
    unfold insertNoteRow
    rw [hdupid]
    simp
  constructor
  · simp only [createNote, if_true]
    rw [hins]
  · simp only [createNote, if_true]
    rw [hins]

/-! ### Claims -/

/-- C1: the three synchronized writes of a create are NOT one atomic unit.
`createNote('a', 'see [[b]]')` on a store without a note `b` throws at the
link insert (foreign-key violation), yet the canonical `notes` row and the
search entry written before it stay committed — the post-error state is not
"as if none of the three writes happened". -/
theorem createNote_partial_commit_on_link_failure :
    (createNote true 0 "a" "see [[b]]" [] stEmpty).1 = .error .fkViolation
    ∧ ((createNote true 0 "a" "see [[b]]" [] stEmpty).2).db.notes.map (fun r => r.id) = ["a"]
    ∧ ((createNote true 0 "a" "see [[b]]" [] stEmpty).2).db.fts.map (fun f => f.id) = ["a"]
    ∧ ((createNote true 0 "a" "see [[b]]" [] stEmpty).2).db.links = [] :=
  ⟨rfl, rfl, rfl, rfl⟩

/-- C2: on update, the canonical store commits BEFORE the mirror write.
With the mirror write failing, `updateNote` throws `mirrorFailure`, yet the
canonical row already carries the new content and timestamp. -/
theorem updateNote_commits_before_mirror :
    (updateNote false 5 "a" ⟨none, none, some "y", none, none⟩
        ((createNote true 0 "a" "x" [] stEmpty).2)).1 = .error .mirrorFailure
    ∧ ((updateNote false 5 "a" ⟨none, none, some "y", none, none⟩
        ((createNote true 0 "a" "x" [] stEmpty).2)).2).db.notes.map
        (fun r => (r.id, r.content, r.modified)) = [("a", "y", 5)] :=
  ⟨rfl, rfl⟩

/-- C3: deleting an existing note removes every `links` row in which it is
origin or target (the two `ON DELETE CASCADE` foreign keys) and every search
entry with its id, and returns true. -/
theorem deleteNote_removes_edges_and_search_entry (s : St) (fsOk : Bool) (id : String)
    (n : Note) (hread : readNote id s = some n) :
    (deleteNote fsOk id s).1 = .ok true
    ∧ (∀ r ∈ ((deleteNote fsOk id s).2).db.links, r.from_id ≠ id ∧ r.to_id ≠ id)
    ∧ (∀ f ∈ ((deleteNote fsOk id s).2).db.fts, f.id ≠ id) := by
  have hd : deleteNote fsOk id s
      = (.ok true,
          ⟨⟨s.db.notes.filter (fun r => !(r.id == id)),
            s.db.links.filter (fun r => !(r.from_id == id || r.to_id == id)),
            s.db.fts.filter (fun f => !(f.id == id))⟩,
           if fsOk then s.files.filter (fun e => !(e.fst == n.path)) else s.files⟩) := by
    unfold deleteNote
    rw [hread]
  rw [hd]
  refine ⟨rfl, ?_, ?_⟩
  · intro r hr
    have hp := (List.mem_filter.mp hr).2
    simpa using hp
  · intro f hf
    have hp := (List.mem_filter.mp hf).2
    simpa using hp

/-- C3 witness: a concrete store holding the note `a` (which references `b`)
and the note `b`. -/
theorem deleteNote_removes_edges_and_search_entry_w :
    (readNote "a" ((createNote true 1 "a" "see [[b]]" []
        ((createNote true 0 "b" "" [] stEmpty).2)).2)
      = some ⟨"a", "a", "see [[b]]", "knowledge-vault/a.md", [], 1, 1, []⟩)
    ∧ ((deleteNote true "a" ((createNote true 1 "a" "see [[b]]" []
          ((createNote true 0 "b" "" [] stEmpty).2)).2)).1 = .ok true
      ∧ (∀ r ∈ ((deleteNote true "a" ((createNote true 1 "a" "see [[b]]" []
            ((createNote true 0 "b" "" [] stEmpty).2)).2)).2).db.links,
          r.from_id ≠ "a" ∧ r.to_id ≠ "a")
      ∧ (∀ f ∈ ((deleteNote true "a" ((createNote true 1 "a" "see [[b]]" []
            ((createNote true 0 "b" "" [] stEmpty).2)).2)).2).db.fts, f.id ≠ "a")) :=
  ⟨by decide,
    deleteNote_removes_edges_and_search_entry
      ((createNote true 1 "a" "see [[b]]" [] ((createNote true 0 "b" "" [] stEmpty).2)).2)
      true "a" ⟨"a", "a", "see [[b]]", "knowledge-vault/a.md", [], 1, 1, []⟩ (by decide)⟩

/-- C4: the backlink insert is NOT insert-if-absent: `links` has no UNIQUE
constraint, so `INSERT OR IGNORE` never ignores.  Creating `a` whose content
references `[[b]]` twice leaves two identical backlink rows from `b` to `a`. -/
theorem backlink_rows_duplicate :
    ((((createNote true 1 "a" "x [[b]] y [[b]]" []
        ((createNote true 0 "b" "" [] stEmpty).2)).2).db.links.filter
      (fun r => r.from_id == "b" && r.to_id == "a"
        && r.type == LinkType.backlink)).length) = 2 :=
  rfl

/-- C5: a note does NOT always have exactly one search entry: `notes_fts` has
no unique id, so `INSERT OR REPLACE` appends; after create + one update the
note `a` has two search entries (while exactly one canonical row). -/
theorem fts_entries_duplicate_after_update :
    ((((updateNote true 1 "a" ⟨none, none, some "world", none, none⟩
        ((createNote true 0 "a" "hello" [] stEmpty).2)).2).db.fts.filter
      (fun f => f.id == "a")).length) = 2
    ∧ ((((updateNote true 1 "a" ⟨none, none, some "world", none, none⟩
        ((createNote true 0 "a" "hello" [] stEmpty).2)).2).db.notes.filter
      (fun r => r.id == "a")).length) = 1 :=
  ⟨rfl, rfl⟩

/-- C6: a search with two supplied tags does NOT succeed: the generated SQL
holds a single tag placeholder while every tag is bound, and better-sqlite3
rejects the parameter-count mismatch. -/
theorem search_two_tags_bind_error :
    search "x" (some ["t1", "t2"]) 50 stEmpty = .error .bindMismatch :=
  rfl

/-- C9 counterexample: the claim's own example query errors instead of
returning an empty sequence: `no-such-token` is not valid unquoted FTS5
syntax (`-` is not a bareword character), so MATCH raises a syntax error even
though no indexed note matches it. -/
theorem search_hyphen_query_errors :
    search "no-such-token" none 50
        ((createNote true 0 "alpha" "hello world" [] stEmpty).2)
      = .error .ftsSyntaxError :=
  rfl

/-- C7: for valid inputs on a store whose derived id is not yet taken (and
whose row paths were derived from the same titles as their ids, as every
API-created row's are), create-then-read returns a note whose title, content
and tags are the inputs and whose created equals its modified timestamp. -/
theorem create_then_read_roundtrip (s : St) (title content : String)
    (tags : List String) (now : Nat)
    (hWF : TitledPaths s) (_hnonempty : title ≠ "")
    (hfresh : ∀ r ∈ s.db.notes, r.id ≠ slug title) :
    ∃ n : Note,
      readNote (slug title) ((createNote true now title content tags s).2) = some n
      ∧ n.title = title ∧ n.content = content ∧ n.tags = tags
      ∧ n.created = n.modified :=
  ⟨⟨slug title, title, content, filePath title, tags, now, now, []⟩,
    createNote_fresh_read s title content tags now hWF hfresh, rfl, rfl, rfl, rfl⟩

/-- C7 witness: creating "Hello World" in an empty store. -/
theorem create_then_read_roundtrip_w :
    (TitledPaths stEmpty ∧ "Hello World" ≠ ""
      ∧ (∀ r ∈ stEmpty.db.notes, r.id ≠ slug "Hello World"))
    ∧ ∃ n : Note,
        readNote (slug "Hello World")
            ((createNote true 7 "Hello World" "hi [[Foo]]" ["t"] stEmpty).2) = some n
        ∧ n.title = "Hello World" ∧ n.content = "hi [[Foo]]" ∧ n.tags = ["t"]
        ∧ n.created = n.modified := by
  have hWF0 : TitledPaths stEmpty := by
    intro r hr
    exact absurd hr (List.not_mem_nil r)
  have h0 : ∀ r ∈ stEmpty.db.notes, r.id ≠ slug "Hello World" := by
    intro r hr
    exact absurd hr (List.not_mem_nil r)
  exact ⟨⟨hWF0, by decide, h0⟩,
    create_then_read_roundtrip stEmpty "Hello World" "hi [[Foo]]" ["t"] 7 hWF0 (by decide) h0⟩

/-- C8: updating an existing note never changes its id or created timestamp
in the canonical store, and since `new Date()` is not before the old
modification time, the modified timestamp never decreases. -/
theorem updateNote_preserves_id_created (s : St) (fsOk : Bool) (now : Nat)
    (id : String) (u : PartialWriteRequest) (old : Note)
    (hread : readNote id s = some old) (hclock : old.modified ≤ now) :
    ∃ new : Note,
      readNote id ((updateNote fsOk now id u s).2) = some new
      ∧ new.id = old.id ∧ new.created = old.created
      ∧ old.modified ≤ new.modified := by
  have h := hread
  unfold readNote at h
  obtain ⟨r0, hr0, hrow⟩ := Option.map_eq_some'.mp h
  have hp : (r0.id == id) = true :=
    List.find?_some (p := fun (n : NoteRow) => n.id == id) hr0
  have hnotes := updateNote_post_notes fsOk now id u s old hread
  refine ⟨rowToNote (patchRow id u old now r0), ?_, ?_, ?_, ?_⟩
  · unfold readNote
    rw [hnotes, find?_map_pres (patchRow id u old now) id (patchRow_id id u old now), hr0]
    rfl
  · rw [← hrow]
    exact patchRow_id id u (rowToNote r0) now r0
  · rw [← hrow]
    exact patchRow_created id u (rowToNote r0) now r0
  · rw [show (rowToNote (patchRow id u old now r0)).modified = now
        from patchRow_modified id u old now r0 hp]
    exact hclock

/-- C8 witness: update the note `a` with new content at a later time. -/
theorem updateNote_preserves_id_created_w :
    (readNote "a" ((createNote true 2 "a" "x" ["t"] stEmpty).2)
        = some ⟨"a", "a", "x", "knowledge-vault/a.md", ["t"], 2, 2, []⟩
      ∧ (⟨"a", "a", "x", "knowledge-vault/a.md", ["t"], 2, 2, []⟩ : Note).modified ≤ 9)
    ∧ ∃ new : Note,
        readNote "a" ((updateNote true 9 "a" ⟨none, none, some "y", none, none⟩
            ((createNote true 2 "a" "x" ["t"] stEmpty).2)).2) = some new
        ∧ new.id = (⟨"a", "a", "x", "knowledge-vault/a.md", ["t"], 2, 2, []⟩ : Note).id
        ∧ new.created = (⟨"a", "a", "x", "knowledge-vault/a.md", ["t"], 2, 2, []⟩ : Note).created
        ∧ (⟨"a", "a", "x", "knowledge-vault/a.md", ["t"], 2, 2, []⟩ : Note).modified
            ≤ new.modified :=
  ⟨⟨by decide, by decide⟩,
    updateNote_preserves_id_created ((createNote true 2 "a" "x" ["t"] stEmpty).2)
      true 9 "a" ⟨none, none, some "y", none, none⟩
      ⟨"a", "a", "x", "knowledge-vault/a.md", ["t"], 2, 2, []⟩ (by decide) (by decide)⟩

/-- C9 (amended): for every query that is valid (bareword) match syntax and
matches no indexed note, search returns the empty sequence and no error. -/
theorem search_valid_query_no_match_empty (s : St) (q : String) (limit : Nat)
    (hvalid : ftsQueryValid q = true)
    (hnone : ∀ f ∈ s.db.fts, ftsMatch q f = false) :
    search q none limit s = .ok [] := by
  have hf : s.db.fts.filter (fun f => ftsMatch q f) = [] := by
    rw [List.filter_eq_nil_iff]
    intro f hfm
    simp [hnone f hfm]
  simp [search, hvalid, hf]

/-- C9 witness: a valid query with no matches against a store holding one
indexed note. -/
theorem search_valid_query_no_match_empty_w :
    (ftsQueryValid "zebra" = true
      ∧ (∀ f ∈ ((createNote true 0 "alpha" "hello world" [] stEmpty).2).db.fts,
          ftsMatch "zebra" f = false))
    ∧ search "zebra" none 50 ((createNote true 0 "alpha" "hello world" [] stEmpty).2)
        = .ok [] := by
  have hnone : ∀ f ∈ ((createNote true 0 "alpha" "hello world" [] stEmpty).2).db.fts,
      ftsMatch "zebra" f = false := by
    intro f hf
    have hmem : f ∈ ([⟨"alpha", "alpha", "hello world"⟩] : List FtsRow) := hf
    rw [List.mem_singleton] at hmem
    subst hmem
    decide
  exact ⟨⟨by decide, hnone⟩,
    search_valid_query_no_match_empty ((createNote true 0 "alpha" "hello world" [] stEmpty).2)
      "zebra" 50 (by decide) hnone⟩

/-- C10: a write request with neither noteId nor title creates the note
titled "Untitled" (id "untitled"); a second such request against the same
store fails with the duplicate error and adds nothing to the database. -/
theorem toolWriteNote_untitled_then_duplicate
    (s : St) (c₁ c₂ : String) (p₁ p₂ : Option String)
    (tg₁ tg₂ : Option (List String)) (n₁ n₂ : Nat)
    (hWF : TitledPaths s)
    (hfresh : ∀ r ∈ s.db.notes, r.id ≠ "untitled") :
    (∃ m : Note,
        readNote "untitled" ((toolWriteNote true n₁ ⟨none, p₁, c₁, none, tg₁⟩ s).2) = some m
        ∧ m.title = "Untitled")
    ∧ (toolWriteNote true n₂ ⟨none, p₂, c₂, none, tg₂⟩
        ((toolWriteNote true n₁ ⟨none, p₁, c₁, none, tg₁⟩ s).2)).1 = .error .duplicate
    ∧ ((toolWriteNote true n₂ ⟨none, p₂, c₂, none, tg₂⟩
        ((toolWriteNote true n₁ ⟨none, p₁, c₁, none, tg₁⟩ s).2)).2).db
      = ((toolWriteNote true n₁ ⟨none, p₁, c₁, none, tg₁⟩ s).2).db := by
  have hu : slug "Untitled" = "untitled" := by decide
  have h1 : toolWriteNote true n₁ ⟨none, p₁, c₁, none, tg₁⟩ s
      = createNote true n₁ "Untitled" c₁ (tg₁.getD []) s := rfl
  have h2 : toolWriteNote true n₂ ⟨none, p₂, c₂, none, tg₂⟩
        ((createNote true n₁ "Untitled" c₁ (tg₁.getD []) s).2)
      = createNote true n₂ "Untitled" c₂ (tg₂.getD [])
          ((createNote true n₁ "Untitled" c₁ (tg₁.getD []) s).2) := rfl
  have hfresh' : ∀ r ∈ s.db.notes, r.id ≠ slug "Untitled" := by
    rw [hu]
    exact hfresh
  have hread1 := createNote_fresh_read s "Untitled" c₁ (tg₁.getD []) n₁ hWF hfresh'
  have hnotes1 := createNote_fresh_notes s "Untitled" c₁ (tg₁.getD []) n₁ hWF hfresh'
  have hany : (((createNote true n₁ "Untitled" c₁ (tg₁.getD []) s).2).db.notes.any
      (fun n => n.id == slug "Untitled")) = true := by
    rw [hnotes1, List.any_eq_true]
    refine ⟨⟨slug "Untitled", "Untitled", c₁, filePath "Untitled", tg₁.getD [], n₁, n₁⟩,
      List.mem_append_right _ (List.mem_singleton_self _), ?_⟩
    simp
  obtain ⟨hdup, hdb⟩ := createNote_dup ((createNote true n₁ "Untitled" c₁ (tg₁.getD []) s).2)
    "Untitled" c₂ (tg₂.getD []) n₂ hany
  refine ⟨?_, ?_, ?_⟩
  · rw [hu] at hread1
    exact ⟨⟨"untitled", "Untitled", c₁, filePath "Untitled", tg₁.getD [], n₁, n₁, []⟩,
      by rw [h1]; exact hread1, rfl⟩
  · rw [h1, h2]
    exact hdup
  · rw [h1, h2]
    exact hdb

/-- C10 witness: two titleless, idless writes against the empty store. -/
theorem toolWriteNote_untitled_then_duplicate_w :
    (TitledPaths stEmpty ∧ (∀ r ∈ stEmpty.db.notes, r.id ≠ "untitled"))
    ∧ ((∃ m : Note,
          readNote "untitled" ((toolWriteNote true 3 ⟨none, none, "c", none, none⟩ stEmpty).2)
              = some m
          ∧ m.title = "Untitled")
      ∧ (toolWriteNote true 4 ⟨none, none, "d", none, none⟩
          ((toolWriteNote true 3 ⟨none, none, "c", none, none⟩ stEmpty).2)).1
            = .error .duplicate
      ∧ ((toolWriteNote true 4 ⟨none, none, "d", none, none⟩
          ((toolWriteNote true 3 ⟨none, none, "c", none, none⟩ stEmpty).2)).2).db
            = ((toolWriteNote true 3 ⟨none, none, "c", none, none⟩ stEmpty).2).db) := by
  have hWF0 : TitledPaths stEmpty := by
    intro r hr
    exact absurd hr (List.not_mem_nil r)
  have h0 : ∀ r ∈ stEmpty.db.notes, r.id ≠ "untitled" := by
    intro r hr
    exact absurd hr (List.not_mem_nil r)
  exact ⟨⟨hWF0, h0⟩,
    toolWriteNote_untitled_then_duplicate stEmpty "c" "d" none none none none 3 4 hWF0 h0⟩

end Knowledge
